import Mathlib

/-!
A shallow embedding of the file revision service of Wikijump's DEEPWELL
backend (`services/file_revision/service.rs`), together with theorems
checking the specified behaviour of the revision ledger: revision
numbering, change detection, lifecycle transitions (create-first, update,
tombstone, resurrection), redaction, and ranged scans.

Database access is modelled by explicit state passing over a list of
revision records; calls to the collaborators (`OutdateService`,
`PageService` slug resolution) and row insertions are recorded as an
effect trace so that claims about "no call happens" can be stated.
Rust's `assert!`-style panics are modelled by a dedicated outcome.
-/

namespace Wikijump

/-- `FileRevisionType` from the models: the four lifecycle revision kinds. -/
inductive FileRevisionType where
  | Create
  | Update
  | Delete
  | Undelete
deriving Repr, DecidableEq

/-- One row of the `file_revision` table (`FileRevisionModel`).
`s3_hash` is a byte string, `licensing` an opaque JSON value; both are
modelled abstractly. Identifiers are `i64`, `revision_number` is `i32`;
all are modelled as `Int` (no arithmetic in the service overflows them,
except that `revision_number` is bounded by `i32` where a claim needs it). -/
structure FileRevisionModel where
  revision_id : Int
  revision_type : FileRevisionType
  revision_number : Int
  file_id : Int
  page_id : Int
  site_id : Int
  user_id : Int
  name : String
  s3_hash : List Nat
  size_hint : Int
  mime_hint : String
  licensing : String
  changes : List String
  comments : String
  hidden : List String
deriving Repr, DecidableEq

/-- Service error type: the variants of `Error` this service can produce. -/
inductive Error where
  | FileNameEmpty
  | FileNameTooLong
  | FileMimeEmpty
  | CannotHideLatestRevision
  | FileRevisionNotFound
  | FileNotFound
  | PageNotFound
  | RecordNotUpdated
deriving Repr, DecidableEq

/-- `ProvidedValue`: tri-state partial-update field, `Unset` or `Set v`. -/
inductive ProvidedValue (α : Type) where
  | Unset
  | Set (value : α)
deriving Repr, DecidableEq

/-- The blob portion of a file revision input (`FileBlob`). -/
structure FileBlob where
  s3_hash : List Nat
  size_hint : Int
  mime_hint : String
deriving Repr, DecidableEq

/-- Body of `CreateFileRevision`: the tri-state partial update. -/
structure CreateFileRevisionBody where
  page_id : ProvidedValue Int
  name : ProvidedValue String
  blob : ProvidedValue FileBlob
  licensing : ProvidedValue String
deriving Repr, DecidableEq

/-- Input to `FileRevisionService::create`. -/
structure CreateFileRevision where
  site_id : Int
  page_id : Int
  file_id : Int
  user_id : Int
  comments : String
  body : CreateFileRevisionBody
deriving Repr, DecidableEq

/-- Input to `FileRevisionService::create_first`. -/
structure CreateFirstFileRevision where
  page_id : Int
  site_id : Int
  file_id : Int
  user_id : Int
  name : String
  s3_hash : List Nat
  size_hint : Int
  mime_hint : String
  licensing : String
  comments : String
deriving Repr, DecidableEq

/-- Input to `FileRevisionService::create_tombstone`. -/
structure CreateTombstoneFileRevision where
  site_id : Int
  page_id : Int
  file_id : Int
  user_id : Int
  comments : String
deriving Repr, DecidableEq

/-- Input to `FileRevisionService::create_resurrection`. -/
structure CreateResurrectionFileRevision where
  site_id : Int
  page_id : Int
  file_id : Int
  user_id : Int
  new_page_id : Int
  new_name : String
  comments : String
deriving Repr, DecidableEq

/-- Input to `FileRevisionService::update` (redaction). -/
structure UpdateFileRevision where
  site_id : Int
  page_id : Int
  file_id : Int
  revision_id : Int
  user_id : Int
  hidden : List String
deriving Repr, DecidableEq

/-- Output of `FileRevisionService::create` (and tombstone/resurrection). -/
structure CreateFileRevisionOutput where
  file_revision_id : Int
  file_revision_number : Int
deriving Repr, DecidableEq

/-- Output of `FileRevisionService::create_first`. -/
structure CreateFirstFileRevisionOutput where
  file_id : Int
  file_revision_id : Int
deriving Repr, DecidableEq

/-- `FetchDirection` from the web module. -/
inductive FetchDirection where
  | Before
  | After
deriving Repr, DecidableEq

/-- Input to `FileRevisionService::get_range`. -/
structure GetFileRevisionRange where
  page_id : Int
  file_id : Int
  revision_number : Int
  revision_direction : FetchDirection
  limit : Nat
deriving Repr, DecidableEq

/-- The database state visible to this service: the `file_revision` table
plus the sequence supplying fresh `revision_id` values on insert. -/
structure Db where
  revisions : List FileRevisionModel
  nextRevisionId : Int
deriving Repr, DecidableEq

/-- The collaborators' environment: `PageService::get` as the slug
resolver (`none` means the page does not exist, `PageNotFound`). -/
structure Env where
  pageSlug : Int → Int → Option String

/-- A recorded call to a collaborator or a row insertion. -/
inductive Effect where
  | getPageSlug (site_id page_id : Int)
  | processPageEdit (site_id page_id : Int) (slug : String)
  | processPageDisplace (site_id page_id : Int) (slug : String)
  | insertRevision (record : FileRevisionModel)
deriving Repr, DecidableEq

/-- Outcome of a service call: a Rust panic (failed `assert!`), a typed
error, or a success value. -/
inductive Outcome (α : Type) where
  | panicked
  | error (e : Error)
  | ok (value : α)
deriving Repr, DecidableEq

/-- Result of running a service operation: its outcome, the trace of
collaborator calls and insertions it performed, and the database after. -/
structure Run (α : Type) where
  outcome : Outcome α
  effects : List Effect
  db : Db
deriving Repr, DecidableEq

/-- `ALL_CHANGES`: the changes recorded for the first revision
("the first revision is always considered to have changed everything"). -/
def ALL_CHANGES : List String := ["page", "name", "blob", "mime", "licensing"]

/-- `next_revision_number`: asserts that `previous` belongs to the same
file and page (a failed assert is a panic, modelled as `none`), then
returns `previous.revision_number + 1`. -/
def next_revision_number (previous : FileRevisionModel) (page_id file_id : Int) :
    Option Int :=
  if previous.file_id = file_id ∧ previous.page_id = page_id then
    some (previous.revision_number + 1)
  else
    none

/-- The running state of `create`'s field-merging block: the `changes`
vector plus the mutable snapshot variables. -/
structure MergedFields where
  changes : List String
  page_id : Int
  name : String
  s3_hash : List Nat
  size_hint : Int
  mime_hint : String
  licensing : String
deriving Repr, DecidableEq

/-- The field-merging block of `FileRevisionService::create`: starting
from the previous snapshot (and the input `page_id`), each provided field
that differs replaces the running value and pushes its change tag, in
source order `page`, `name`, `blob`, `licensing`. -/
def mergeCreate (page_id : Int) (previous : FileRevisionModel)
    (body : CreateFileRevisionBody) : MergedFields :=
  let st0 : MergedFields :=
    { changes := [], page_id := page_id, name := previous.name,
      s3_hash := previous.s3_hash, size_hint := previous.size_hint,
      mime_hint := previous.mime_hint, licensing := previous.licensing }
  let st1 :=
    match body.page_id with
    | .Set new_page_id =>
        if st0.page_id ≠ new_page_id then
          { st0 with changes := st0.changes ++ ["page"], page_id := new_page_id }
        else st0
    | .Unset => st0
  let st2 :=
    match body.name with
    | .Set new_name =>
        if st1.name ≠ new_name then
          { st1 with changes := st1.changes ++ ["name"], name := new_name }
        else st1
    | .Unset => st1
  let st3 :=
    match body.blob with
    | .Set new_blob =>
        if st2.s3_hash ≠ new_blob.s3_hash ∨ st2.size_hint ≠ new_blob.size_hint ∨
            st2.mime_hint ≠ new_blob.mime_hint then
          { st2 with
            changes := st2.changes ++ ["blob"],
            s3_hash := new_blob.s3_hash, size_hint := new_blob.size_hint,
            mime_hint := new_blob.mime_hint }
        else st2
    | .Unset => st2
  let st4 :=
    match body.licensing with
    | .Set new_licensing =>
        if st3.licensing ≠ new_licensing then
          { st3 with
            changes := st3.changes ++ ["licensing"],
            licensing := new_licensing }
        else st3
    | .Unset => st3
  st4

/-- The row that `create` inserts: note the source sets
`revision_number: Set(0)` on this row, not the computed next number. -/
def createRecord (db : Db) (input : CreateFileRevision) (m : MergedFields) :
    FileRevisionModel :=
  { revision_id := db.nextRevisionId,
    revision_type := FileRevisionType.Update,
    revision_number := 0,
    file_id := input.file_id,
    page_id := m.page_id,
    site_id := input.site_id,
    user_id := input.user_id,
    name := m.name,
    s3_hash := m.s3_hash,
    size_hint := m.size_hint,
    mime_hint := m.mime_hint,
    licensing := m.licensing,
    changes := m.changes,
    comments := input.comments,
    hidden := [] }

/-- Insert a row: assigns the fresh `revision_id` and appends. -/
def dbInsert (db : Db) (record : FileRevisionModel) : Db :=
  { revisions := db.revisions ++ [record], nextRevisionId := db.nextRevisionId + 1 }

namespace FileRevisionService

/-- `FileRevisionService::create`: creates a new revision on an existing
file. Computes the next revision number (panicking on identity mismatch),
merges the partial update, returns `none` when nothing changed, validates
the merged snapshot, resolves the page slug, runs the outdater as an
edit, and inserts the new `Update` revision. -/
def create (db : Db) (env : Env) (input : CreateFileRevision)
    (previous : FileRevisionModel) : Run (Option CreateFileRevisionOutput) :=
  match next_revision_number previous input.page_id input.file_id with
  | none => { outcome := .panicked, effects := [], db := db }
  | some revision_number =>
    let m := mergeCreate input.page_id previous input.body
    if m.changes = [] then
      { outcome := .ok none, effects := [], db := db }
    else if m.name = "" then
      { outcome := .error .FileNameEmpty, effects := [], db := db }
    else if 256 ≤ m.name.utf8ByteSize then
      { outcome := .error .FileNameTooLong, effects := [], db := db }
    else if m.mime_hint = "" then
      { outcome := .error .FileMimeEmpty, effects := [], db := db }
    else
      match env.pageSlug input.site_id m.page_id with
      | none =>
        { outcome := .error .PageNotFound,
          effects := [.getPageSlug input.site_id m.page_id], db := db }
      | some page_slug =>
        let record := createRecord db input m
        { outcome := .ok (some
            { file_revision_id := db.nextRevisionId,
              file_revision_number := revision_number }),
          effects := [.getPageSlug input.site_id m.page_id,
                      .processPageEdit input.site_id m.page_id page_slug,
                      .insertRevision record]
          db := dbInsert db record }

/-- The row that `create_first` inserts: `revision_type = Create`,
`revision_number` stored as `0`, `changes = ALL_CHANGES`. -/
def createFirstRecord (db : Db) (input : CreateFirstFileRevision) :
    FileRevisionModel :=
  { revision_id := db.nextRevisionId,
    revision_type := FileRevisionType.Create,
    revision_number := 0,
    file_id := input.file_id,
    page_id := input.page_id,
    site_id := input.site_id,
    user_id := input.user_id,
    name := input.name,
    s3_hash := input.s3_hash,
    size_hint := input.size_hint,
    mime_hint := input.mime_hint,
    licensing := input.licensing,
    changes := ALL_CHANGES,
    comments := input.comments,
    hidden := [] }

/-- `FileRevisionService::create_first`: resolves the slug, runs the
outdater as a displace, and inserts the first revision. -/
def create_first (db : Db) (env : Env) (input : CreateFirstFileRevision) :
    Run CreateFirstFileRevisionOutput :=
  match env.pageSlug input.site_id input.page_id with
  | none =>
    { outcome := .error .PageNotFound,
      effects := [.getPageSlug input.site_id input.page_id], db := db }
  | some page_slug =>
    let record := createFirstRecord db input
    { outcome := .ok
        { file_id := input.file_id, file_revision_id := db.nextRevisionId },
      effects := [.getPageSlug input.site_id input.page_id,
                  .processPageDisplace input.site_id input.page_id page_slug,
                  .insertRevision record]
      db := dbInsert db record }

/-- The row that `create_tombstone` inserts: `Delete` type, the computed
next revision number, the previous snapshot carried forward, no changes. -/
def tombstoneRecord (db : Db) (input : CreateTombstoneFileRevision)
    (previous : FileRevisionModel) (revision_number : Int) : FileRevisionModel :=
  { revision_id := db.nextRevisionId,
    revision_type := FileRevisionType.Delete,
    revision_number := revision_number,
    file_id := input.file_id,
    page_id := input.page_id,
    site_id := input.site_id,
    user_id := input.user_id,
    name := previous.name,
    s3_hash := previous.s3_hash,
    size_hint := previous.size_hint,
    mime_hint := previous.mime_hint,
    licensing := previous.licensing,
    changes := [],
    comments := input.comments,
    hidden := [] }

/-- `FileRevisionService::create_tombstone`: computes the next revision
number (panicking on identity mismatch), resolves the slug, runs the
outdater as an edit, and inserts the tombstone revision. -/
def create_tombstone (db : Db) (env : Env) (input : CreateTombstoneFileRevision)
    (previous : FileRevisionModel) : Run CreateFileRevisionOutput :=
  match next_revision_number previous input.page_id input.file_id with
  | none => { outcome := .panicked, effects := [], db := db }
  | some revision_number =>
    match env.pageSlug input.site_id input.page_id with
    | none =>
      { outcome := .error .PageNotFound,
        effects := [.getPageSlug input.site_id input.page_id], db := db }
    | some page_slug =>
      let record := tombstoneRecord db input previous revision_number
      { outcome := .ok
          { file_revision_id := db.nextRevisionId,
            file_revision_number := revision_number },
        effects := [.getPageSlug input.site_id input.page_id,
                    .processPageEdit input.site_id input.page_id page_slug,
                    .insertRevision record]
        db := dbInsert db record }

/-- The changes list computed by `create_resurrection`: `page` when the
file moves to a different page, `name` when it is renamed. -/
def resurrectionChanges (old_page_id new_page_id : Int)
    (old_name new_name : String) : List String :=
  (if old_page_id ≠ new_page_id then ["page"] else []) ++
    (if old_name ≠ new_name then ["name"] else [])

/-- The row that `create_resurrection` inserts: `Undelete` type, the
computed next revision number, destination page and new name, the content
fields carried from the tombstoned snapshot. -/
def resurrectionRecord (db : Db) (input : CreateResurrectionFileRevision)
    (previous : FileRevisionModel) (revision_number : Int) : FileRevisionModel :=
  { revision_id := db.nextRevisionId,
    revision_type := FileRevisionType.Undelete,
    revision_number := revision_number,
    file_id := input.file_id,
    page_id := input.new_page_id,
    site_id := input.site_id,
    user_id := input.user_id,
    name := input.new_name,
    s3_hash := previous.s3_hash,
    size_hint := previous.size_hint,
    mime_hint := previous.mime_hint,
    licensing := previous.licensing,
    changes := resurrectionChanges input.page_id input.new_page_id
      previous.name input.new_name
    comments := input.comments,
    hidden := [] }

/-- `FileRevisionService::create_resurrection`: computes the next
revision number against the old page (panicking on identity mismatch),
computes changes over `{page, name}`, resolves the destination page's
slug, runs the outdater as an edit on the destination page, and inserts
the resurrection revision. -/
def create_resurrection (db : Db) (env : Env)
    (input : CreateResurrectionFileRevision) (previous : FileRevisionModel) :
    Run CreateFileRevisionOutput :=
  match next_revision_number previous input.page_id input.file_id with
  | none => { outcome := .panicked, effects := [], db := db }
  | some revision_number =>
    match env.pageSlug input.site_id input.new_page_id with
    | none =>
      { outcome := .error .PageNotFound,
        effects := [.getPageSlug input.site_id input.new_page_id], db := db }
    | some new_page_slug =>
      let record := resurrectionRecord db input previous revision_number
      { outcome := .ok
          { file_revision_id := db.nextRevisionId,
            file_revision_number := revision_number },
        effects := [.getPageSlug input.site_id input.new_page_id,
                    .processPageEdit input.site_id input.new_page_id new_page_slug,
                    .insertRevision record]
        db := dbInsert db record }

/-- Does this row belong to the given `(site, page, file)` resource? -/
def matchesResource (site_id page_id file_id : Int)
    (r : FileRevisionModel) : Bool :=
  r.site_id == site_id && r.page_id == page_id && r.file_id == file_id

/-- One row with the greatest `revision_number` among a list
(`order_by_desc(RevisionNumber).one()`). -/
def maxByRevisionNumber : List FileRevisionModel → Option FileRevisionModel
  | [] => none
  | r :: rs =>
    match maxByRevisionNumber rs with
    | none => some r
    | some m => if r.revision_number < m.revision_number then some m else some r

/-- `FileRevisionService::get_latest`: the revision of the resource with
the highest revision number, `FileRevisionNotFound` when there is none. -/
def get_latest (db : Db) (site_id page_id file_id : Int) :
    Except Error FileRevisionModel :=
  match maxByRevisionNumber
      (db.revisions.filter (matchesResource site_id page_id file_id)) with
  | none => .error .FileRevisionNotFound
  | some r => .ok r

/-- `FileRevisionService::update` (redaction): refuses to hide the
resource's current latest revision; otherwise updates only the `hidden`
column of the row with the given `revision_id`. -/
def update (db : Db) (input : UpdateFileRevision) :
    Except Error FileRevisionModel × Db :=
  match get_latest db input.site_id input.page_id input.file_id with
  | .error e => (.error e, db)
  | .ok latest =>
    if input.revision_id = latest.revision_id then
      (.error .CannotHideLatestRevision, db)
    else
      match db.revisions.find? (fun r => r.revision_id == input.revision_id) with
      | none => (.error .RecordNotUpdated, db)
      | some r =>
        (.ok { r with hidden := input.hidden },
         { db with revisions := db.revisions.map fun s =>
             if s.revision_id == input.revision_id then
               { s with hidden := input.hidden }
             else s })

/-- `i32::MAX`, the maximum representable revision number. -/
def i32_MAX : Int := 2147483647

/-- Insert a row into a list sorted ascending by `revision_number`. -/
def insertAsc (r : FileRevisionModel) :
    List FileRevisionModel → List FileRevisionModel
  | [] => [r]
  | s :: ss =>
    if r.revision_number ≤ s.revision_number then r :: s :: ss
    else s :: insertAsc r ss

/-- Sort rows ascending by `revision_number`
(`order_by_asc(RevisionNumber)`). -/
def sortByRevisionNumber (l : List FileRevisionModel) : List FileRevisionModel :=
  l.foldr insertAsc []

/-- `FileRevisionService::get_range`: a negative anchor is replaced by
`i32::MAX`; `Before` keeps rows with number `≤` the anchor, `After` rows
with number `≥` it; the result is ascending and truncated to `limit`. -/
def get_range (db : Db) (input : GetFileRevisionRange) :
    List FileRevisionModel :=
  let revision_number :=
    if 0 ≤ input.revision_number then input.revision_number else i32_MAX
  let cond : FileRevisionModel → Bool :=
    match input.revision_direction with
    | .Before => fun r => decide (r.revision_number ≤ revision_number)
    | .After => fun r => decide (revision_number ≤ r.revision_number)
  (sortByRevisionNumber (db.revisions.filter fun r =>
      r.page_id == input.page_id && r.file_id == input.file_id && cond r)).take
    input.limit

end FileRevisionService

open FileRevisionService

/-- The `page` tag contributed by `create`'s field merge, in terms of the
inputs only (the running page value at that point is the input one). -/
def pageChangeTag (page_id : Int) (body : CreateFileRevisionBody) : List String :=
  match body.page_id with
  | .Set v => if page_id ≠ v then ["page"] else []
  | .Unset => []

/-- The `name` tag contributed by `create`'s field merge. -/
def nameChangeTag (previous : FileRevisionModel)
    (body : CreateFileRevisionBody) : List String :=
  match body.name with
  | .Set v => if previous.name ≠ v then ["name"] else []
  | .Unset => []

/-- The `blob` tag contributed by `create`'s field merge: the group is
compared as a unit. -/
def blobChangeTag (previous : FileRevisionModel)
    (body : CreateFileRevisionBody) : List String :=
  match body.blob with
  | .Set b =>
    if previous.s3_hash ≠ b.s3_hash ∨ previous.size_hint ≠ b.size_hint ∨
        previous.mime_hint ≠ b.mime_hint then ["blob"] else []
  | .Unset => []

/-- The `licensing` tag contributed by `create`'s field merge. -/
def licensingChangeTag (previous : FileRevisionModel)
    (body : CreateFileRevisionBody) : List String :=
  match body.licensing with
  | .Set v => if previous.licensing ≠ v then ["licensing"] else []
  | .Unset => []

/-! Concrete fixtures: a site `1`, page `10`, file `5`, and the revision
history built by running the lifecycle operations on an empty table. -/

/-- Environment in which every page resolves to the slug `"slug"`. -/
def env0 : Env := { pageSlug := fun _ _ => some "slug" }

/-- The empty `file_revision` table. -/
def emptyDb : Db := { revisions := [], nextRevisionId := 1 }

/-- A first upload: `a.png` on site 1, page 10, file 5. -/
def firstInput0 : CreateFirstFileRevision :=
  { page_id := 10, site_id := 1, file_id := 5, user_id := 7, name := "a.png",
    s3_hash := [1, 2, 3], size_hint := 100, mime_hint := "image/png",
    licensing := "cc", comments := "init" }

/-- Running `create_first` on the empty table. -/
def run1 : Run CreateFirstFileRevisionOutput := create_first emptyDb env0 firstInput0

/-- The record stored by `run1`. -/
def rec0 : FileRevisionModel := createFirstRecord emptyDb firstInput0

/-- The table after the first upload. -/
def db1 : Db := run1.db

/-- A partial update renaming the file to `b.png`. -/
def body_rename : CreateFileRevisionBody :=
  { page_id := .Unset, name := .Set "b.png", blob := .Unset, licensing := .Unset }

/-- The `create` input for the rename. -/
def renameInput0 : CreateFileRevision :=
  { site_id := 1, page_id := 10, file_id := 5, user_id := 7,
    comments := "rename", body := body_rename }

/-- Running the rename against the stored first revision. -/
def run2 : Run (Option CreateFileRevisionOutput) := create db1 env0 renameInput0 rec0

/-- A partial update moving the file to page 11 (everything else unset). -/
def body_move : CreateFileRevisionBody :=
  { page_id := .Set 11, name := .Unset, blob := .Unset, licensing := .Unset }

/-- The `create` input for the move. -/
def moveInput0 : CreateFileRevision :=
  { site_id := 1, page_id := 10, file_id := 5, user_id := 7,
    comments := "move", body := body_move }

/-- Running the move against the stored first revision. -/
def run_move : Run (Option CreateFileRevisionOutput) := create db1 env0 moveInput0 rec0

/-- A partial update whose provided fields all equal the previous values. -/
def body_same : CreateFileRevisionBody :=
  { page_id := .Set 10, name := .Set "a.png", blob := .Unset, licensing := .Unset }

/-- The `create` input for the identical update. -/
def sameInput0 : CreateFileRevision :=
  { site_id := 1, page_id := 10, file_id := 5, user_id := 7,
    comments := "same", body := body_same }

/-- A partial update clearing the name (invalid). -/
def body_clear : CreateFileRevisionBody :=
  { page_id := .Unset, name := .Set "", blob := .Unset, licensing := .Unset }

/-- The `create` input for the invalid rename. -/
def clearInput0 : CreateFileRevision :=
  { site_id := 1, page_id := 10, file_id := 5, user_id := 7,
    comments := "clear", body := body_clear }

/-- A well-numbered two-revision history, as the spec intends it: the
first revision of file 5 on page 10 of site 1. -/
def recHist1 : FileRevisionModel :=
  { revision_id := 1, revision_type := .Create, revision_number := 1,
    file_id := 5, page_id := 10, site_id := 1, user_id := 7, name := "a.png",
    s3_hash := [1, 2, 3], size_hint := 100, mime_hint := "image/png",
    licensing := "cc", changes := ALL_CHANGES, comments := "init", hidden := [] }

/-- Second revision of the same history: a rename. -/
def recHist2 : FileRevisionModel :=
  { recHist1 with
    revision_id := 2, revision_number := 2,
    revision_type := .Update, name := "b.png", changes := ["name"],
    comments := "rename" }

/-- The table holding that two-revision history. -/
def dbHist : Db := { revisions := [recHist1, recHist2], nextRevisionId := 3 }

/-- A redaction request against the non-latest revision 1. -/
def redactInput0 : UpdateFileRevision :=
  { site_id := 1, page_id := 10, file_id := 5, revision_id := 1, user_id := 7,
    hidden := ["name"] }

/-- A tombstone input for file 5 on page 10. -/
def tombInput0 : CreateTombstoneFileRevision :=
  { site_id := 1, page_id := 10, file_id := 5, user_id := 7, comments := "del" }

/-- A tombstoned revision of that file. -/
def recDel : FileRevisionModel :=
  { recHist2 with
    revision_id := 3, revision_number := 3,
    revision_type := .Delete, changes := [], comments := "del" }

/-- A resurrection input moving the file to page 11 under a new name. -/
def resInput0 : CreateResurrectionFileRevision :=
  { site_id := 1, page_id := 10, file_id := 5, user_id := 7,
    new_page_id := 11, new_name := "c.png", comments := "res" }

/-- A revision carrying the maximum representable revision number. -/
def recMax : FileRevisionModel :=
  { recHist1 with
    revision_id := 4, revision_number := 2147483647,
    revision_type := .Update }

/-- A table holding revisions numbered 1 and `i32::MAX`. -/
def dbMax : Db := { revisions := [recHist1, recMax], nextRevisionId := 5 }

/-- A ranged scan with the negative sentinel anchor, direction `After`. -/
def rangeAfterInput : GetFileRevisionRange :=
  { page_id := 10, file_id := 5, revision_number := -1,
    revision_direction := .After, limit := 10 }

/-- The stored first revision, but scoped to a different site (99) than
the site (1) of the resource being mutated. -/
def recWrongSite : FileRevisionModel := { rec0 with site_id := 99 }

/-! Helper lemmas about the sequencer and the field merge. -/

theorem next_revision_number_eq (previous : FileRevisionModel) (pg f : Int)
    (hf : previous.file_id = f) (hp : previous.page_id = pg) :
    next_revision_number previous pg f = some (previous.revision_number + 1) := by
  simp [next_revision_number, hf, hp]

theorem mergeCreate_changes_eq (pid : Int) (prev : FileRevisionModel)
    (body : CreateFileRevisionBody) :
    (mergeCreate pid prev body).changes =
      pageChangeTag pid body ++ nameChangeTag prev body ++
        blobChangeTag prev body ++ licensingChangeTag prev body := by
  rcases body with ⟨bp, bn, bb, bl⟩
  cases bp <;> cases bn <;> cases bb <;> cases bl <;>
    simp [mergeCreate, pageChangeTag, nameChangeTag, blobChangeTag,
      licensingChangeTag] <;>
    split_ifs <;> simp_all

theorem mergeCreate_page_id (pid : Int) (prev : FileRevisionModel)
    (body : CreateFileRevisionBody) :
    (mergeCreate pid prev body).page_id =
      (match body.page_id with
       | .Set v => v
       | .Unset => pid) := by
  rcases body with ⟨bp, bn, bb, bl⟩
  cases bp <;> cases bn <;> cases bb <;> cases bl <;>
    simp [mergeCreate] <;> split_ifs <;> simp_all

theorem create_ok_some_db (db : Db) (env : Env) (input : CreateFileRevision)
    (previous : FileRevisionModel) (out : CreateFileRevisionOutput)
    (hok : (create db env input previous).outcome = .ok (some out)) :
    (create db env input previous).db.revisions =
      db.revisions ++
        [createRecord db input (mergeCreate input.page_id previous input.body)] := by
  unfold create at hok ⊢
  cases h : next_revision_number previous input.page_id input.file_id with
  | none => rw [h] at hok; simp at hok
  | some n =>
    rw [h] at hok
    by_cases h1 : (mergeCreate input.page_id previous input.body).changes = []
    · simp [h1] at hok
    · by_cases h2 : (mergeCreate input.page_id previous input.body).name = ""
      · simp [h1, h2] at hok
      · by_cases h3 : 256 ≤
            (mergeCreate input.page_id previous input.body).name.utf8ByteSize
        · simp [h1, h2, h3] at hok
        · by_cases h4 : (mergeCreate input.page_id previous input.body).mime_hint = ""
          · simp [h1, h2, h3, h4] at hok
          · cases hs : env.pageSlug input.site_id
                (mergeCreate input.page_id previous input.body).page_id with
            | none => simp [h1, h2, h3, h4, hs] at hok
            | some slug => simp [h1, h2, h3, h4, hs, dbInsert]

/-! The claims. -/

/-- C1: the claim says the stored `revision_number` values form the
gapless sequence `1..N`, each appended record carrying the previous
number plus one and the first record carrying `1`. The code does not do
this: `create_first` inserts its row with `revision_number = 0`, and
`create` computes `previous.revision_number + 1`, returns it in its
output, but inserts its row with `revision_number = 0` as well. After a
first upload and one rename, the stored sequence is `[0, 0]` — not
`[1, 2]` — even though `create`'s output reports number `1`. -/
theorem create_stores_revision_number_zero :
    run1.db.revisions.map FileRevisionModel.revision_number = [0] ∧
    run2.db.revisions.map FileRevisionModel.revision_number = [0, 0] ∧
    run2.outcome =
      .ok (some { file_revision_id := 2, file_revision_number := 1 }) ∧
    ¬ run1.db.revisions.map FileRevisionModel.revision_number = [1] ∧
    ¬ run2.db.revisions.map FileRevisionModel.revision_number = [0, 1] := by
  decide

/-- C2 counterexample: the record appended by `create_first` carries
`revision_number = 0`, not `1`, and its `changes` list is the five-tag
`ALL_CHANGES` including `"mime"`, not the four-tag set
`{page, name, blob, licensing}`. -/
theorem create_first_number_changes_counterexample :
    run1.db.revisions = [rec0] ∧
    rec0.revision_type = FileRevisionType.Create ∧
    rec0.revision_number = 0 ∧
    rec0.changes = ["page", "name", "blob", "mime", "licensing"] ∧
    "mime" ∈ rec0.changes ∧
    ¬ (rec0.revision_number = 1 ∧
       rec0.changes = ["page", "name", "blob", "licensing"]) := by
  decide

/-- C2 (amended): `create_first` appends a revision record with
`revision_type = Create`, stored `revision_number = 0`, and `changes`
equal to the five-tag list `["page", "name", "blob", "mime",
"licensing"]`; a subsequent `get_latest` on that (previously empty)
resource returns this record with those values. -/
theorem create_first_latest (db : Db) (env : Env)
    (input : CreateFirstFileRevision) (slug : String)
    (hs : env.pageSlug input.site_id input.page_id = some slug)
    (hnew : ∀ r ∈ db.revisions,
      matchesResource input.site_id input.page_id input.file_id r = false) :
    (create_first db env input).outcome =
      .ok { file_id := input.file_id, file_revision_id := db.nextRevisionId } ∧
    (create_first db env input).db.revisions =
      db.revisions ++ [createFirstRecord db input] ∧
    (createFirstRecord db input).revision_type = FileRevisionType.Create ∧
    (createFirstRecord db input).revision_number = 0 ∧
    (createFirstRecord db input).changes = ALL_CHANGES ∧
    get_latest (create_first db env input).db
        input.site_id input.page_id input.file_id =
      .ok (createFirstRecord db input) := by
  have hrun : create_first db env input =
      { outcome := .ok
          { file_id := input.file_id, file_revision_id := db.nextRevisionId },
        effects := [.getPageSlug input.site_id input.page_id,
                    .processPageDisplace input.site_id input.page_id slug,
                    .insertRevision (createFirstRecord db input)],
        db := dbInsert db (createFirstRecord db input) } := by
    unfold create_first
    rw [hs]
  refine ⟨by rw [hrun], by rw [hrun]; rfl, rfl, rfl, rfl, ?_⟩
  rw [hrun]
  show get_latest (dbInsert db (createFirstRecord db input))
      input.site_id input.page_id input.file_id = _
  unfold get_latest dbInsert
  have hfilter : (db.revisions ++ [createFirstRecord db input]).filter
      (matchesResource input.site_id input.page_id input.file_id) =
      [createFirstRecord db input] := by
    rw [List.filter_append]
    rw [List.filter_eq_nil_iff.mpr (by intro r hr; simp [hnew r hr])]
    simp [matchesResource, createFirstRecord]
  rw [hfilter]
  rfl

/-- C2 witness: the amended behaviour at the concrete first upload. -/
theorem create_first_latest_witness :
    env0.pageSlug firstInput0.site_id firstInput0.page_id = some "slug" ∧
    (∀ r ∈ emptyDb.revisions,
      matchesResource firstInput0.site_id firstInput0.page_id
        firstInput0.file_id r = false) ∧
    ((create_first emptyDb env0 firstInput0).outcome =
      .ok { file_id := firstInput0.file_id,
            file_revision_id := emptyDb.nextRevisionId } ∧
     (create_first emptyDb env0 firstInput0).db.revisions =
       emptyDb.revisions ++ [createFirstRecord emptyDb firstInput0] ∧
     (createFirstRecord emptyDb firstInput0).revision_type =
       FileRevisionType.Create ∧
     (createFirstRecord emptyDb firstInput0).revision_number = 0 ∧
     (createFirstRecord emptyDb firstInput0).changes = ALL_CHANGES ∧
     get_latest (create_first emptyDb env0 firstInput0).db
         firstInput0.site_id firstInput0.page_id firstInput0.file_id =
       .ok (createFirstRecord emptyDb firstInput0)) :=
  ⟨by decide, by decide,
    create_first_latest emptyDb env0 firstInput0 "slug" (by decide) (by decide)⟩

/-- C3 counterexample: an `Update` revision produced by `create` can
record a different `page_id` than the supplied previous revision: with
`body.page_id = Set 11` against a previous revision on page 10, the
appended record carries `page_id = 11`. -/
theorem create_reassigns_page_id_counterexample :
    rec0.page_id = 10 ∧
    run_move.outcome =
      .ok (some { file_revision_id := 2, file_revision_number := 1 }) ∧
    run_move.db.revisions.map FileRevisionModel.page_id = [10, 11] ∧
    (createRecord db1 moveInput0
        (mergeCreate moveInput0.page_id rec0 moveInput0.body)).revision_type =
      FileRevisionType.Update ∧
    ¬ (createRecord db1 moveInput0
        (mergeCreate moveInput0.page_id rec0 moveInput0.body)).page_id =
      rec0.page_id := by
  decide

/-- C3 (amended): an `Update` revision produced by `create` records the
same `page_id` as the supplied previous revision unless the input's
`body.page_id` is explicitly `Set` to a different page; in that case the
appended record carries the new `page_id` and the `"page"` tag is in its
`changes`. -/
theorem create_update_page_id (db : Db) (env : Env)
    (input : CreateFileRevision) (previous : FileRevisionModel)
    (out : CreateFileRevisionOutput)
    (hf : previous.file_id = input.file_id)
    (hp : previous.page_id = input.page_id)
    (hok : (create db env input previous).outcome = .ok (some out)) :
    (create db env input previous).db.revisions =
      db.revisions ++
        [createRecord db input (mergeCreate input.page_id previous input.body)] ∧
    (createRecord db input
        (mergeCreate input.page_id previous input.body)).revision_type =
      FileRevisionType.Update ∧
    ((input.body.page_id = .Unset ∨ input.body.page_id = .Set previous.page_id) →
      (createRecord db input
          (mergeCreate input.page_id previous input.body)).page_id =
        previous.page_id) ∧
    (∀ v, input.body.page_id = .Set v → v ≠ previous.page_id →
      (createRecord db input
          (mergeCreate input.page_id previous input.body)).page_id = v ∧
      "page" ∈ (createRecord db input
          (mergeCreate input.page_id previous input.body)).changes) := by
  have hf' := hf
  refine ⟨create_ok_some_db db env input previous out hok, rfl, ?_, ?_⟩
  · intro hbp
    rcases hbp with h | h <;> simp [createRecord, mergeCreate_page_id, h, hp]
  · intro v hv hvne
    constructor
    · simp [createRecord, mergeCreate_page_id, hv]
    · show "page" ∈ (mergeCreate input.page_id previous input.body).changes
      rw [mergeCreate_changes_eq]
      have hne2 : input.page_id ≠ v := by
        rw [← hp]
        exact fun hh => hvne hh.symm
      have hpt : pageChangeTag input.page_id input.body = ["page"] := by
        simp [pageChangeTag, hv, hne2]
      rw [hpt]
      simp

/-- C3 witness: the amended behaviour at the concrete move to page 11. -/
theorem create_update_page_id_witness :
    rec0.file_id = moveInput0.file_id ∧
    rec0.page_id = moveInput0.page_id ∧
    (create db1 env0 moveInput0 rec0).outcome =
      .ok (some { file_revision_id := 2, file_revision_number := 1 }) ∧
    ((create db1 env0 moveInput0 rec0).db.revisions =
      db1.revisions ++
        [createRecord db1 moveInput0
          (mergeCreate moveInput0.page_id rec0 moveInput0.body)] ∧
     (createRecord db1 moveInput0
        (mergeCreate moveInput0.page_id rec0 moveInput0.body)).revision_type =
      FileRevisionType.Update ∧
     ((moveInput0.body.page_id = .Unset ∨
        moveInput0.body.page_id = .Set rec0.page_id) →
      (createRecord db1 moveInput0
          (mergeCreate moveInput0.page_id rec0 moveInput0.body)).page_id =
        rec0.page_id) ∧
     (∀ v, moveInput0.body.page_id = .Set v → v ≠ rec0.page_id →
      (createRecord db1 moveInput0
          (mergeCreate moveInput0.page_id rec0 moveInput0.body)).page_id = v ∧
      "page" ∈ (createRecord db1 moveInput0
          (mergeCreate moveInput0.page_id rec0 moveInput0.body)).changes)) :=
  ⟨by decide, by decide, by decide,
    create_update_page_id db1 env0 moveInput0 rec0
      { file_revision_id := 2, file_revision_number := 1 }
      (by decide) (by decide) (by decide)⟩

/-- C4: when every provided (`Set`) field of the partial update equals
the corresponding previous value, `create` is a no-op: it returns
`Ok(None)`, records no effects (no slug resolution, no outdater call, no
insertion), and leaves the table unchanged. -/
theorem create_noop (db : Db) (env : Env) (input : CreateFileRevision)
    (previous : FileRevisionModel)
    (hf : previous.file_id = input.file_id)
    (hp : previous.page_id = input.page_id)
    (hbp : input.body.page_id = .Unset ∨ input.body.page_id = .Set previous.page_id)
    (hbn : input.body.name = .Unset ∨ input.body.name = .Set previous.name)
    (hbb : input.body.blob = .Unset ∨ input.body.blob =
      .Set ⟨previous.s3_hash, previous.size_hint, previous.mime_hint⟩)
    (hbl : input.body.licensing = .Unset ∨
      input.body.licensing = .Set previous.licensing) :
    create db env input previous =
      { outcome := .ok none, effects := [], db := db } := by
  have hch : (mergeCreate input.page_id previous input.body).changes = [] := by
    rw [mergeCreate_changes_eq]
    rcases hbp with h | h <;> rcases hbn with h2 | h2 <;>
      rcases hbb with h3 | h3 <;> rcases hbl with h4 | h4 <;>
      simp [pageChangeTag, nameChangeTag, blobChangeTag, licensingChangeTag,
        h, h2, h3, h4, hp]
  unfold create
  rw [next_revision_number_eq previous input.page_id input.file_id hf hp]
  simp [hch]

/-- C4 witness: the no-op at a concrete identical update. -/
theorem create_noop_witness :
    rec0.file_id = sameInput0.file_id ∧
    rec0.page_id = sameInput0.page_id ∧
    (sameInput0.body.page_id = .Unset ∨
      sameInput0.body.page_id = .Set rec0.page_id) ∧
    (sameInput0.body.name = .Unset ∨ sameInput0.body.name = .Set rec0.name) ∧
    (sameInput0.body.blob = .Unset ∨ sameInput0.body.blob =
      .Set ⟨rec0.s3_hash, rec0.size_hint, rec0.mime_hint⟩) ∧
    (sameInput0.body.licensing = .Unset ∨
      sameInput0.body.licensing = .Set rec0.licensing) ∧
    create db1 env0 sameInput0 rec0 =
      { outcome := .ok none, effects := [], db := db1 } :=
  ⟨by decide, by decide, by decide, by decide, by decide, by decide,
    create_noop db1 env0 sameInput0 rec0 (by decide) (by decide) (by decide)
      (by decide) (by decide) (by decide)⟩

/-- C5: given a table with unique revision ids in which `target` is a
revision of the resource named by the redaction request, and `latest` is
the resource's current latest revision, the redaction operation
(`FileRevisionService::update`) fails with `CannotHideLatestRevision`
exactly when the supplied `revision_id` names the latest revision; on a
non-latest revision it succeeds, returning `target` with only `hidden`
replaced, and rewrites the table so that only that row's `hidden` set
changes. -/
theorem update_redaction (db : Db) (input : UpdateFileRevision)
    (latest target : FileRevisionModel)
    (huniq : ∀ r ∈ db.revisions, ∀ s ∈ db.revisions,
      r.revision_id = s.revision_id → r = s)
    (hmem : target ∈ db.revisions)
    (hres : matchesResource input.site_id input.page_id input.file_id target = true)
    (hid : target.revision_id = input.revision_id)
    (hlatest : get_latest db input.site_id input.page_id input.file_id = .ok latest) :
    ((update db input).1 = .error .CannotHideLatestRevision ↔
      input.revision_id = latest.revision_id) ∧
    (input.revision_id ≠ latest.revision_id →
      (update db input).1 = .ok { target with hidden := input.hidden } ∧
      (update db input).2.revisions = db.revisions.map (fun s =>
        if s.revision_id == input.revision_id then
          { s with hidden := input.hidden }
        else s)) := by
  have hres' := hres
  unfold update
  rw [hlatest]
  by_cases heq : input.revision_id = latest.revision_id
  · simp [heq]
  · have hfind : db.revisions.find?
        (fun r => r.revision_id == input.revision_id) = some target := by
      have hsome : (db.revisions.find?
          (fun r => r.revision_id == input.revision_id)).isSome :=
        List.find?_isSome.mpr ⟨target, hmem, by simp [hid]⟩
      obtain ⟨u, hu⟩ := Option.isSome_iff_exists.mp hsome
      have humem : u ∈ db.revisions := List.mem_of_find?_eq_some hu
      have hupred := List.find?_some hu
      have huid : u.revision_id = input.revision_id := by
        simpa using hupred
      have hut : u = target := huniq u humem target hmem (by rw [huid, hid])
      rw [hu, hut]
    simp [heq, hfind]

/-- C5 witness: redacting the non-latest revision 1 of a two-revision
history succeeds and alters only `hidden`; the guard triggers exactly on
the latest revision's id. -/
theorem update_redaction_witness :
    (∀ r ∈ dbHist.revisions, ∀ s ∈ dbHist.revisions,
      r.revision_id = s.revision_id → r = s) ∧
    recHist1 ∈ dbHist.revisions ∧
    matchesResource redactInput0.site_id redactInput0.page_id
      redactInput0.file_id recHist1 = true ∧
    recHist1.revision_id = redactInput0.revision_id ∧
    get_latest dbHist redactInput0.site_id redactInput0.page_id
      redactInput0.file_id = .ok recHist2 ∧
    (((update dbHist redactInput0).1 = .error .CannotHideLatestRevision ↔
      redactInput0.revision_id = recHist2.revision_id) ∧
     (redactInput0.revision_id ≠ recHist2.revision_id →
      (update dbHist redactInput0).1 =
        .ok { recHist1 with hidden := redactInput0.hidden } ∧
      (update dbHist redactInput0).2.revisions = dbHist.revisions.map (fun s =>
        if s.revision_id == redactInput0.revision_id then
          { s with hidden := redactInput0.hidden }
        else s))) :=
  ⟨by decide, by decide, by decide, by decide, by rfl,
    update_redaction dbHist redactInput0 recHist2 recHist1
      (by decide) (by decide) (by decide) (by decide) (by rfl)⟩

/-- C6: `create_tombstone` appends a revision with
`revision_type = Delete` whose snapshot fields (`name`, content hash,
`size_hint`, `mime_hint`, `licensing`) are carried forward unchanged from
the previous revision and whose `changes` list is empty. -/
theorem create_tombstone_carries_snapshot (db : Db) (env : Env)
    (input : CreateTombstoneFileRevision) (previous : FileRevisionModel)
    (slug : String)
    (hf : previous.file_id = input.file_id)
    (hp : previous.page_id = input.page_id)
    (hs : env.pageSlug input.site_id input.page_id = some slug) :
    create_tombstone db env input previous =
      { outcome := .ok
          { file_revision_id := db.nextRevisionId,
            file_revision_number := previous.revision_number + 1 },
        effects := [.getPageSlug input.site_id input.page_id,
          .processPageEdit input.site_id input.page_id slug,
          .insertRevision
            (tombstoneRecord db input previous (previous.revision_number + 1))],
        db := dbInsert db
          (tombstoneRecord db input previous (previous.revision_number + 1)) } ∧
    (tombstoneRecord db input previous
        (previous.revision_number + 1)).revision_type =
      FileRevisionType.Delete ∧
    (tombstoneRecord db input previous (previous.revision_number + 1)).name =
      previous.name ∧
    (tombstoneRecord db input previous (previous.revision_number + 1)).s3_hash =
      previous.s3_hash ∧
    (tombstoneRecord db input previous (previous.revision_number + 1)).size_hint =
      previous.size_hint ∧
    (tombstoneRecord db input previous (previous.revision_number + 1)).mime_hint =
      previous.mime_hint ∧
    (tombstoneRecord db input previous (previous.revision_number + 1)).licensing =
      previous.licensing ∧
    (tombstoneRecord db input previous (previous.revision_number + 1)).changes =
      [] := by
  refine ⟨?_, rfl, rfl, rfl, rfl, rfl, rfl, rfl⟩
  unfold create_tombstone
  rw [next_revision_number_eq previous input.page_id input.file_id hf hp, hs]

/-- C6 witness: tombstoning the two-revision history at revision 2. -/
theorem create_tombstone_carries_snapshot_witness :
    recHist2.file_id = tombInput0.file_id ∧
    recHist2.page_id = tombInput0.page_id ∧
    env0.pageSlug tombInput0.site_id tombInput0.page_id = some "slug" ∧
    (create_tombstone dbHist env0 tombInput0 recHist2 =
      { outcome := .ok
          { file_revision_id := dbHist.nextRevisionId,
            file_revision_number := recHist2.revision_number + 1 },
        effects := [.getPageSlug tombInput0.site_id tombInput0.page_id,
          .processPageEdit tombInput0.site_id tombInput0.page_id "slug",
          .insertRevision
            (tombstoneRecord dbHist tombInput0 recHist2
              (recHist2.revision_number + 1))],
        db := dbInsert dbHist
          (tombstoneRecord dbHist tombInput0 recHist2
            (recHist2.revision_number + 1)) } ∧
     (tombstoneRecord dbHist tombInput0 recHist2
        (recHist2.revision_number + 1)).revision_type =
      FileRevisionType.Delete ∧
     (tombstoneRecord dbHist tombInput0 recHist2
        (recHist2.revision_number + 1)).name = recHist2.name ∧
     (tombstoneRecord dbHist tombInput0 recHist2
        (recHist2.revision_number + 1)).s3_hash = recHist2.s3_hash ∧
     (tombstoneRecord dbHist tombInput0 recHist2
        (recHist2.revision_number + 1)).size_hint = recHist2.size_hint ∧
     (tombstoneRecord dbHist tombInput0 recHist2
        (recHist2.revision_number + 1)).mime_hint = recHist2.mime_hint ∧
     (tombstoneRecord dbHist tombInput0 recHist2
        (recHist2.revision_number + 1)).licensing = recHist2.licensing ∧
     (tombstoneRecord dbHist tombInput0 recHist2
        (recHist2.revision_number + 1)).changes = []) :=
  ⟨by decide, by decide, by decide,
    create_tombstone_carries_snapshot dbHist env0 tombInput0 recHist2 "slug"
      (by decide) (by decide) (by decide)⟩

/-- C7: for a tombstoned previous revision, `create_resurrection` appends
an `Undelete` revision that alters at most `page_id` (to `new_page_id`)
and `name` (to `new_name`); the content fields are carried verbatim from
the tombstoned snapshot, and `changes` contains `"page"` exactly when the
old and new page differ, `"name"` exactly when the old and new name
differ, and nothing else. -/
theorem create_resurrection_spec (db : Db) (env : Env)
    (input : CreateResurrectionFileRevision) (previous : FileRevisionModel)
    (slug : String)
    (hdel : previous.revision_type = FileRevisionType.Delete)
    (hf : previous.file_id = input.file_id)
    (hp : previous.page_id = input.page_id)
    (hs : env.pageSlug input.site_id input.new_page_id = some slug) :
    create_resurrection db env input previous =
      { outcome := .ok
          { file_revision_id := db.nextRevisionId,
            file_revision_number := previous.revision_number + 1 },
        effects := [.getPageSlug input.site_id input.new_page_id,
          .processPageEdit input.site_id input.new_page_id slug,
          .insertRevision
            (resurrectionRecord db input previous (previous.revision_number + 1))],
        db := dbInsert db
          (resurrectionRecord db input previous (previous.revision_number + 1)) } ∧
    (resurrectionRecord db input previous
        (previous.revision_number + 1)).revision_type =
      FileRevisionType.Undelete ∧
    (resurrectionRecord db input previous (previous.revision_number + 1)).page_id =
      input.new_page_id ∧
    (resurrectionRecord db input previous (previous.revision_number + 1)).name =
      input.new_name ∧
    (resurrectionRecord db input previous
        (previous.revision_number + 1)).s3_hash = previous.s3_hash ∧
    (resurrectionRecord db input previous
        (previous.revision_number + 1)).size_hint = previous.size_hint ∧
    (resurrectionRecord db input previous
        (previous.revision_number + 1)).mime_hint = previous.mime_hint ∧
    (resurrectionRecord db input previous
        (previous.revision_number + 1)).licensing = previous.licensing ∧
    ("page" ∈ (resurrectionRecord db input previous
        (previous.revision_number + 1)).changes ↔
      input.page_id ≠ input.new_page_id) ∧
    ("name" ∈ (resurrectionRecord db input previous
        (previous.revision_number + 1)).changes ↔
      previous.name ≠ input.new_name) ∧
    (∀ t ∈ (resurrectionRecord db input previous
        (previous.revision_number + 1)).changes, t = "page" ∨ t = "name") := by
  have hdel' := hdel
  refine ⟨?_, rfl, rfl, rfl, rfl, rfl, rfl, rfl, ?_, ?_, ?_⟩
  · unfold create_resurrection
    rw [next_revision_number_eq previous input.page_id input.file_id hf hp, hs]
  · show "page" ∈ resurrectionChanges input.page_id input.new_page_id
        previous.name input.new_name ↔ _
    unfold resurrectionChanges
    split_ifs <;> simp_all
  · show "name" ∈ resurrectionChanges input.page_id input.new_page_id
        previous.name input.new_name ↔ _
    unfold resurrectionChanges
    split_ifs <;> simp_all
  · show ∀ t ∈ resurrectionChanges input.page_id input.new_page_id
        previous.name input.new_name, _
    unfold resurrectionChanges
    split_ifs <;> simp_all

/-- C7 witness: resurrecting the tombstoned file onto page 11 under a new
name; both the `"page"` and `"name"` tags appear. -/
theorem create_resurrection_spec_witness :
    recDel.revision_type = FileRevisionType.Delete ∧
    recDel.file_id = resInput0.file_id ∧
    recDel.page_id = resInput0.page_id ∧
    env0.pageSlug resInput0.site_id resInput0.new_page_id = some "slug" ∧
    (create_resurrection dbHist env0 resInput0 recDel =
      { outcome := .ok
          { file_revision_id := dbHist.nextRevisionId,
            file_revision_number := recDel.revision_number + 1 },
        effects := [.getPageSlug resInput0.site_id resInput0.new_page_id,
          .processPageEdit resInput0.site_id resInput0.new_page_id "slug",
          .insertRevision
            (resurrectionRecord dbHist resInput0 recDel
              (recDel.revision_number + 1))],
        db := dbInsert dbHist
          (resurrectionRecord dbHist resInput0 recDel
            (recDel.revision_number + 1)) } ∧
     (resurrectionRecord dbHist resInput0 recDel
        (recDel.revision_number + 1)).revision_type =
      FileRevisionType.Undelete ∧
     (resurrectionRecord dbHist resInput0 recDel
        (recDel.revision_number + 1)).page_id = resInput0.new_page_id ∧
     (resurrectionRecord dbHist resInput0 recDel
        (recDel.revision_number + 1)).name = resInput0.new_name ∧
     (resurrectionRecord dbHist resInput0 recDel
        (recDel.revision_number + 1)).s3_hash = recDel.s3_hash ∧
     (resurrectionRecord dbHist resInput0 recDel
        (recDel.revision_number + 1)).size_hint = recDel.size_hint ∧
     (resurrectionRecord dbHist resInput0 recDel
        (recDel.revision_number + 1)).mime_hint = recDel.mime_hint ∧
     (resurrectionRecord dbHist resInput0 recDel
        (recDel.revision_number + 1)).licensing = recDel.licensing ∧
     ("page" ∈ (resurrectionRecord dbHist resInput0 recDel
        (recDel.revision_number + 1)).changes ↔
      resInput0.page_id ≠ resInput0.new_page_id) ∧
     ("name" ∈ (resurrectionRecord dbHist resInput0 recDel
        (recDel.revision_number + 1)).changes ↔
      recDel.name ≠ resInput0.new_name) ∧
     (∀ t ∈ (resurrectionRecord dbHist resInput0 recDel
        (recDel.revision_number + 1)).changes, t = "page" ∨ t = "name")) :=
  ⟨by decide, by decide, by decide, by decide,
    create_resurrection_spec dbHist env0 resInput0 recDel "slug"
      (by decide) (by decide) (by decide) (by decide)⟩

/-- C8 counterexample: the claim says any mismatch of the
`(site, resource_id, page_id)` identity between the supplied previous
revision and the target resource fails loudly. The sequencer never
receives, and never checks, the site: a previous revision from site 99,
with matching file and page ids, is accepted against a mutation of the
site-1 resource — `next_revision_number` returns
`previous.revision_number + 1` instead of aborting, and the full `create`
call continues silently rather than panicking. -/
theorem next_revision_number_ignores_site_counterexample :
    recWrongSite.site_id = 99 ∧
    renameInput0.site_id = 1 ∧
    recWrongSite.file_id = renameInput0.file_id ∧
    recWrongSite.page_id = renameInput0.page_id ∧
    next_revision_number recWrongSite renameInput0.page_id
        renameInput0.file_id =
      some (recWrongSite.revision_number + 1) ∧
    ¬ (create db1 env0 renameInput0 recWrongSite).outcome =
      Outcome.panicked := by
  decide

/-- C8 (amended): under the precondition that the supplied previous
revision carries the same `file_id` and `page_id` as the resource being
mutated, the sequencer (`next_revision_number`) returns
`previous.revision_number + 1`; the assertion covers only the
`(file_id, page_id)` identity, so the abort branch is unreachable exactly
when file and page ids match — `site_id` is not part of the check, and a
site mismatch continues silently. -/
theorem next_revision_number_contract (previous : FileRevisionModel)
    (page_id file_id : Int)
    (h : previous.file_id = file_id ∧ previous.page_id = page_id) :
    next_revision_number previous page_id file_id =
      some (previous.revision_number + 1) ∧
    (∀ (p : FileRevisionModel) (pg f : Int),
      next_revision_number p pg f = none ↔ ¬ (p.file_id = f ∧ p.page_id = pg)) ∧
    (∀ (p : FileRevisionModel) (pg f s : Int),
      next_revision_number { p with site_id := s } pg f =
        next_revision_number p pg f) := by
  refine ⟨next_revision_number_eq previous page_id file_id h.1 h.2, ?_, ?_⟩
  · intro p pg f
    unfold next_revision_number
    split_ifs with hc <;> simp [hc]
  · intro p pg f s
    unfold next_revision_number
    rfl

/-- C8 witness: the sequencer at the concrete second revision. -/
theorem next_revision_number_contract_witness :
    (recHist2.file_id = 5 ∧ recHist2.page_id = 10) ∧
    (next_revision_number recHist2 10 5 = some (recHist2.revision_number + 1) ∧
     (∀ (p : FileRevisionModel) (pg f : Int),
       next_revision_number p pg f = none ↔ ¬ (p.file_id = f ∧ p.page_id = pg)) ∧
     (∀ (p : FileRevisionModel) (pg f s : Int),
       next_revision_number { p with site_id := s } pg f =
         next_revision_number p pg f)) :=
  ⟨by decide, next_revision_number_contract recHist2 10 5 (by decide)⟩

/-- C9: when `create` computes a non-empty change set, the merged
snapshot is validated and on failure the typed error (`FileNameEmpty`,
`FileNameTooLong`, or `FileMimeEmpty`) is returned with no effects — no
slug resolution, no outdater call, no insertion — and an unchanged
table. -/
theorem create_validation_fail_fast (db : Db) (env : Env)
    (input : CreateFileRevision) (previous : FileRevisionModel)
    (hf : previous.file_id = input.file_id)
    (hp : previous.page_id = input.page_id)
    (hne : (mergeCreate input.page_id previous input.body).changes ≠ []) :
    ((mergeCreate input.page_id previous input.body).name = "" →
      create db env input previous =
        { outcome := .error .FileNameEmpty, effects := [], db := db }) ∧
    ((mergeCreate input.page_id previous input.body).name ≠ "" →
      256 ≤ (mergeCreate input.page_id previous input.body).name.utf8ByteSize →
      create db env input previous =
        { outcome := .error .FileNameTooLong, effects := [], db := db }) ∧
    ((mergeCreate input.page_id previous input.body).name ≠ "" →
      (mergeCreate input.page_id previous input.body).name.utf8ByteSize < 256 →
      (mergeCreate input.page_id previous input.body).mime_hint = "" →
      create db env input previous =
        { outcome := .error .FileMimeEmpty, effects := [], db := db }) := by
  unfold create
  rw [next_revision_number_eq previous input.page_id input.file_id hf hp]
  refine ⟨fun h1 => ?_, fun h1 h2 => ?_, fun h1 h2 h3 => ?_⟩
  · simp [hne, h1]
  · simp [hne, h1, h2]
  · simp [hne, h1, h3, Nat.not_le.mpr h2]

/-- C9 witness: renaming to the empty string is rejected with
`FileNameEmpty` before any effect. -/
theorem create_validation_fail_fast_witness :
    rec0.file_id = clearInput0.file_id ∧
    rec0.page_id = clearInput0.page_id ∧
    (mergeCreate clearInput0.page_id rec0 clearInput0.body).changes ≠ [] ∧
    (((mergeCreate clearInput0.page_id rec0 clearInput0.body).name = "" →
      create db1 env0 clearInput0 rec0 =
        { outcome := .error .FileNameEmpty, effects := [], db := db1 }) ∧
     ((mergeCreate clearInput0.page_id rec0 clearInput0.body).name ≠ "" →
      256 ≤ (mergeCreate clearInput0.page_id rec0 clearInput0.body).name.utf8ByteSize →
      create db1 env0 clearInput0 rec0 =
        { outcome := .error .FileNameTooLong, effects := [], db := db1 }) ∧
     ((mergeCreate clearInput0.page_id rec0 clearInput0.body).name ≠ "" →
      (mergeCreate clearInput0.page_id rec0 clearInput0.body).name.utf8ByteSize < 256 →
      (mergeCreate clearInput0.page_id rec0 clearInput0.body).mime_hint = "" →
      create db1 env0 clearInput0 rec0 =
        { outcome := .error .FileMimeEmpty, effects := [], db := db1 })) :=
  ⟨by decide, by decide, by decide,
    create_validation_fail_fast db1 env0 clearInput0 rec0
      (by decide) (by decide) (by decide)⟩

/-- C10: in `get_range`, every negative anchor — not only the documented
sentinel `-1` — is replaced by `i32::MAX` before filtering; hence for a
negative anchor, direction `Before` returns the resource's whole history
ascending by revision number up to `limit`, and direction `After` returns
only revisions numbered exactly `i32::MAX` (given that all stored numbers
fit in an `i32`). -/
theorem get_range_negative_anchor (db : Db) (input : GetFileRevisionRange)
    (hneg : input.revision_number < 0)
    (hwf : ∀ r ∈ db.revisions, r.revision_number ≤ i32_MAX) :
    (input.revision_direction = .Before →
      get_range db input =
        (sortByRevisionNumber (db.revisions.filter fun r =>
          r.page_id == input.page_id && r.file_id == input.file_id)).take
          input.limit) ∧
    (input.revision_direction = .After →
      get_range db input =
        (sortByRevisionNumber (db.revisions.filter fun r =>
          r.page_id == input.page_id && r.file_id == input.file_id &&
            r.revision_number == i32_MAX)).take input.limit) := by
  have hneg' : ¬ 0 ≤ input.revision_number := by omega
  constructor
  · intro hdir
    unfold get_range
    rw [hdir, if_neg hneg']
    simp only []
    congr 2
    apply List.filter_congr
    intro r hr
    have hle := hwf r hr
    simp [hle]
  · intro hdir
    unfold get_range
    rw [hdir, if_neg hneg']
    simp only []
    congr 2
    apply List.filter_congr
    intro r hr
    have hle := hwf r hr
    by_cases hn : r.revision_number = i32_MAX
    · simp [hn]
    · have hlt : ¬ i32_MAX ≤ r.revision_number := by omega
      simp [hn, hlt]

/-- C10 witness: a `-1` anchor with direction `After` on a history
holding revisions numbered 1 and `i32::MAX` returns only the
`i32::MAX`-numbered revision. -/
theorem get_range_negative_anchor_witness :
    rangeAfterInput.revision_number < 0 ∧
    (∀ r ∈ dbMax.revisions, r.revision_number ≤ i32_MAX) ∧
    ((rangeAfterInput.revision_direction = .Before →
      get_range dbMax rangeAfterInput =
        (sortByRevisionNumber (dbMax.revisions.filter fun r =>
          r.page_id == rangeAfterInput.page_id &&
            r.file_id == rangeAfterInput.file_id)).take
          rangeAfterInput.limit) ∧
     (rangeAfterInput.revision_direction = .After →
      get_range dbMax rangeAfterInput =
        (sortByRevisionNumber (dbMax.revisions.filter fun r =>
          r.page_id == rangeAfterInput.page_id &&
            r.file_id == rangeAfterInput.file_id &&
            r.revision_number == i32_MAX)).take rangeAfterInput.limit)) :=
  ⟨by decide, by decide,
    get_range_negative_anchor dbMax rangeAfterInput (by decide) (by decide)⟩

end Wikijump
